import Mathlib

/-!
Shallow embedding of the application entry point in
`src/src-tauri/src/lib.rs` of the Web-File-Name-Translator repository.

The Rust source builds a Tauri application: it registers three plugins
(shell, dialog, filesystem), installs a setup hook that looks up the
webview window labelled "main" and requests focus on it (discarding the
result of the focus call), then hands control to the framework run loop,
panicking with "error while running tauri application" if the run loop
returns an error.

The embedding models the builder as a record accumulating plugins, a
setup hook and an event trace; the framework-owned application state as a
list of labelled windows; and the environment (outcomes of the external
focus call and of the event loop) as explicit parameters.  Every side
effect of the bootstrap is recorded in the trace.
-/

namespace WebFileNameTranslator

/-- The three plugin modules registered by `run` in `lib.rs`
(`tauri_plugin_shell`, `tauri_plugin_dialog`, `tauri_plugin_fs`). -/
inductive Plugin where
  | shell
  | dialog
  | fs
deriving DecidableEq

/-- A framework-managed webview window, identified by its label.
Extra framework-owned data is abstracted as a `Nat` payload so that
frame-condition statements are not vacuous. -/
structure Window where
  label : String
  payload : Nat := 0
deriving DecidableEq

/-- The framework-owned application handle visible to the setup hook:
the set of existing webview windows and the set of registered commands. -/
structure App where
  windows : List Window
  commands : List String := []
deriving DecidableEq

/-- Observable events of the bootstrap, in the order they happen. -/
inductive Event where
  | builderDefault
  | pluginRegistered (p : Plugin)
  | setupRegistered
  | runInvoked
  | windowLookup (label : String)
  | focusRequested (label : String)
  | commandRegistered (name : String)
  | windowCreated (label : String)
  | eventLoopRunning
deriving DecidableEq

/-- Extract the plugin from a plugin-registration event, if any. -/
def Event.pluginOf : Event → Option Plugin
  | Event.pluginRegistered p => some p
  | _ => none

/-- The environment: outcomes of the two external calls the bootstrap
makes, namely `window.set_focus()` (per window label) and the framework
run loop. -/
structure Env where
  focusResult : String → Except String Unit
  runResult : Except String Unit

/-- Outcome of the whole process: either the run loop finished normally,
or `.expect` aborted the process with a message. -/
inductive ProcessOutcome where
  | exitedNormally
  | panicked (msg : String)
deriving DecidableEq

/-- `app.get_webview_window("label")`: look the window up by label. -/
def getWebviewWindow (app : App) (label : String) : Option Window :=
  app.windows.find? (fun w => w.label == label)

/-- `window.set_focus()`: emits a focus request for the window and
returns the environment-determined result of the call. -/
def set_focus (env : Env) (w : Window) : List Event × Except String Unit :=
  ([Event.focusRequested w.label], env.focusResult w.label)

/-- The setup closure passed to `.setup(|app| ...)` in `lib.rs`:
look up the window labelled "main"; if present, request focus on it and
discard the result (`let _ = window.set_focus();`); return `Ok(())`.
It returns the (unchanged) application handle, the events it caused and
its `Result`. -/
def setupHook (app : App) (env : Env) :
    App × List Event × Except String Unit :=
  match getWebviewWindow app "main" with
  | some window =>
      let r := set_focus env window
      (app, Event.windowLookup "main" :: r.fst, Except.ok ())
  | none =>
      (app, [Event.windowLookup "main"], Except.ok ())

/-- The application builder: accumulated trace, registered plugins, and
the optional setup hook. -/
structure Builder where
  trace : List Event
  plugins : List Plugin
  setupHook : Option (App → Env → App × List Event × Except String Unit)

/-- `tauri::Builder::default()`. -/
def Builder.default : Builder :=
  { trace := [Event.builderDefault], plugins := [], setupHook := none }

/-- `.plugin(p)`: register a plugin on the builder. -/
def Builder.plugin (b : Builder) (p : Plugin) : Builder :=
  { b with
    trace := b.trace ++ [Event.pluginRegistered p]
    plugins := b.plugins ++ [p] }

/-- `.setup(f)`: install the setup hook on the builder. -/
def Builder.setup (b : Builder)
    (f : App → Env → App × List Event × Except String Unit) : Builder :=
  { b with
    trace := b.trace ++ [Event.setupRegistered]
    setupHook := some f }

/-- The opaque context produced by `tauri::generate_context!()`. -/
structure Context where
  mk ::

/-- `tauri::generate_context!()`. -/
def generateContext : Context := Context.mk

/-- `.run(ctx)`: the framework initializes, invokes the setup hook on the
application handle, and — when the hook succeeds — enters the event loop,
whose outcome the environment determines.  A hook error would abort the
run with a setup error. -/
def Builder.run (b : Builder) (env : Env) (app : App) (_ctx : Context) :
    List Event × Except String Unit :=
  let r :=
    match b.setupHook with
    | some f => f app env
    | none => (app, [], Except.ok ())
  match r.snd.snd with
  | Except.ok _ =>
      (b.trace ++ [Event.runInvoked] ++ r.snd.fst ++ [Event.eventLoopRunning],
       env.runResult)
  | Except.error e =>
      (b.trace ++ [Event.runInvoked] ++ r.snd.fst,
       Except.error ("setup error: " ++ e))

/-- `.expect(msg)`: turn an `Err` into a process abort carrying the
message and the error, and an `Ok` into normal completion. -/
def expect (r : Except String Unit) (msg : String) : ProcessOutcome :=
  match r with
  | Except.ok _ => ProcessOutcome.exitedNormally
  | Except.error e => ProcessOutcome.panicked (msg ++ ": " ++ e)

/-- The builder value constructed inside `run` in `lib.rs`:
`tauri::Builder::default().plugin(shell).plugin(dialog).plugin(fs)
.setup(...)`. -/
def appBuilder : Builder :=
  ((((Builder.default).plugin Plugin.shell).plugin Plugin.dialog).plugin
      Plugin.fs).setup setupHook

/-- `pub fn run()` from `lib.rs`: build the application and run it,
aborting with "error while running tauri application" on failure.
Returns the full event trace and the process outcome. -/
def run (env : Env) (app : App) : List Event × ProcessOutcome :=
  let r := appBuilder.run env app generateContext
  (r.fst, expect r.snd "error while running tauri application")

/-! ### Characterization lemmas (shared helpers) -/

/-- The setup hook leaves the application handle unchanged, performs one
lookup of "main" followed by a focus request exactly when the window
exists, and returns `Ok(())`. -/
theorem setupHook_spec (app : App) (env : Env) :
    setupHook app env =
      (app,
       Event.windowLookup "main" ::
         (match getWebviewWindow app "main" with
          | some w => [Event.focusRequested w.label]
          | none => []),
       Except.ok ()) := by
  unfold setupHook
  cases getWebviewWindow app "main" <;> rfl

/-- Full characterization of `run`: the trace is the builder steps in
order, then the hook events, then the event loop; the outcome is the
`expect` of the environment's run-loop result. -/
theorem run_spec (env : Env) (app : App) :
    run env app =
      ([Event.builderDefault,
        Event.pluginRegistered Plugin.shell,
        Event.pluginRegistered Plugin.dialog,
        Event.pluginRegistered Plugin.fs,
        Event.setupRegistered,
        Event.runInvoked,
        Event.windowLookup "main"] ++
         (match getWebviewWindow app "main" with
          | some w => [Event.focusRequested w.label]
          | none => []) ++ [Event.eventLoopRunning],
       expect env.runResult "error while running tauri application") := by
  unfold run Builder.run appBuilder Builder.default Builder.plugin
    Builder.setup
  simp only [setupHook_spec]
  cases getWebviewWindow app "main" <;> rfl

/-- A window found by label "main" has label "main". -/
theorem label_of_found (app : App) (w : Window)
    (h : getWebviewWindow app "main" = some w) : w.label = "main" := by
  unfold getWebviewWindow at h
  have := List.find?_some h
  exact eq_of_beq this

/-- Running the constructed builder: the trace, and the event-loop result
passed through unchanged (the setup hook never errors). -/
theorem appBuilder_run_spec (env : Env) (app : App) (ctx : Context) :
    appBuilder.run env app ctx =
      ([Event.builderDefault,
        Event.pluginRegistered Plugin.shell,
        Event.pluginRegistered Plugin.dialog,
        Event.pluginRegistered Plugin.fs,
        Event.setupRegistered,
        Event.runInvoked,
        Event.windowLookup "main"] ++
         (match getWebviewWindow app "main" with
          | some w => [Event.focusRequested w.label]
          | none => []) ++ [Event.eventLoopRunning],
       env.runResult) := by
  unfold Builder.run appBuilder Builder.default Builder.plugin Builder.setup
  simp only [setupHook_spec]
  cases getWebviewWindow app "main" <;> rfl

/-- True on the events that would mutate the application state (command
registration, window creation); the setup hook never emits one. -/
def Event.isStateMutation : Event → Bool
  | Event.commandRegistered _ => true
  | Event.windowCreated _ => true
  | _ => false

/-! ### Sample inputs for witnesses -/

/-- A window labelled "main". -/
def mainWindow : Window := { label := "main" }

/-- An application state containing the "main" window. -/
def sampleApp : App := { windows := [mainWindow] }

/-- An application state with no windows at all. -/
def emptyApp : App := { windows := [] }

/-- An environment where both the focus call and the run loop succeed. -/
def okEnv : Env :=
  { focusResult := fun _ => Except.ok (), runResult := Except.ok () }

/-- An environment where the focus call fails but the run loop succeeds. -/
def focusFailEnv : Env :=
  { focusResult := fun _ => Except.error "focus denied",
    runResult := Except.ok () }

/-- An environment where the run loop itself fails. -/
def runFailEnv : Env :=
  { focusResult := fun _ => Except.ok (),
    runResult := Except.error "webview2 missing" }

/-! ### Claims -/

/-- C1: on every invocation of `run`, exactly three plugins — shell,
dialog, filesystem — are registered on the application builder, and these
three are the capabilities declared available (registered in the trace)
after startup. -/
theorem run_registers_exactly_three_plugins (env : Env) (app : App) :
    appBuilder.plugins = [Plugin.shell, Plugin.dialog, Plugin.fs] ∧
    appBuilder.plugins.length = 3 ∧
    (run env app).fst.filterMap Event.pluginOf =
      [Plugin.shell, Plugin.dialog, Plugin.fs] := by
  refine ⟨rfl, rfl, ?_⟩
  rw [run_spec]
  cases getWebviewWindow app "main" <;> rfl

/-- C2: whenever a webview window named "main" exists at startup, the
setup hook looks it up and requests input focus on it. -/
theorem setup_focuses_existing_main_window (app : App) (env : Env)
    (w : Window) (h : getWebviewWindow app "main" = some w) :
    Event.windowLookup "main" ∈ (setupHook app env).snd.fst ∧
    Event.focusRequested "main" ∈ (setupHook app env).snd.fst := by
  have hl := label_of_found app w h
  rw [setupHook_spec, h]
  exact ⟨by simp, by simp [hl]⟩

/-- Witness for C2 at a concrete state holding the "main" window. -/
theorem setup_focuses_existing_main_window_witness :
    getWebviewWindow sampleApp "main" = some mainWindow ∧
    (Event.windowLookup "main" ∈ (setupHook sampleApp okEnv).snd.fst ∧
     Event.focusRequested "main" ∈ (setupHook sampleApp okEnv).snd.fst) :=
  ⟨rfl, setup_focuses_existing_main_window sampleApp okEnv mainWindow rfl⟩

/-- C3: when no window named "main" exists, the setup hook requests no
focus, still returns `Ok(())`, and the startup outcome is exactly the
event loop's outcome (no error from the hook). -/
theorem setup_no_main_window_no_focus (app : App) (env : Env)
    (h : getWebviewWindow app "main" = none) :
    (∀ l, Event.focusRequested l ∉ (setupHook app env).snd.fst) ∧
    (setupHook app env).snd.snd = Except.ok () ∧
    (run env app).snd =
      expect env.runResult "error while running tauri application" := by
  refine ⟨?_, ?_, ?_⟩
  · intro l
    rw [setupHook_spec, h]
    simp
  · rw [setupHook_spec, h]
  · rw [run_spec]

/-- Witness for C3 at a concrete windowless state. -/
theorem setup_no_main_window_no_focus_witness :
    getWebviewWindow emptyApp "main" = none ∧
    ((∀ l, Event.focusRequested l ∉ (setupHook emptyApp okEnv).snd.fst) ∧
     (setupHook emptyApp okEnv).snd.snd = Except.ok () ∧
     (run okEnv emptyApp).snd =
       expect okEnv.runResult "error while running tauri application") :=
  ⟨rfl, setup_no_main_window_no_focus emptyApp okEnv rfl⟩

/-- C4: the process aborts, with the descriptive message, exactly when
the framework run loop fails — the sole failure path, with no recovery,
retry, or degraded mode. -/
theorem run_fail_fast_sole_failure_path (env : Env) (app : App) :
    (run env app).snd =
      (match env.runResult with
       | Except.ok _ => ProcessOutcome.exitedNormally
       | Except.error e =>
           ProcessOutcome.panicked
             ("error while running tauri application: " ++ e)) := by
  rw [run_spec]
  cases env.runResult <;> rfl

/-- C5: when the focus request on the "main" window fails, the error is
discarded: the request still happened, the hook still returns `Ok(())`,
and the startup outcome is unaffected. -/
theorem focus_failure_swallowed (app : App) (env : Env) (w : Window)
    (e : String) (h : getWebviewWindow app "main" = some w)
    (hf : env.focusResult w.label = Except.error e) :
    (set_focus env w).snd = Except.error e ∧
    Event.focusRequested w.label ∈ (setupHook app env).snd.fst ∧
    (setupHook app env).snd.snd = Except.ok () ∧
    (run env app).snd =
      expect env.runResult "error while running tauri application" := by
  refine ⟨?_, ?_, ?_, ?_⟩
  · simp [set_focus, hf]
  · rw [setupHook_spec, h]
    simp
  · rw [setupHook_spec, h]
  · rw [run_spec]

/-- Witness for C5 at a concrete state where the focus call fails. -/
theorem focus_failure_swallowed_witness :
    (getWebviewWindow sampleApp "main" = some mainWindow ∧
     focusFailEnv.focusResult mainWindow.label =
       Except.error "focus denied") ∧
    ((set_focus focusFailEnv mainWindow).snd = Except.error "focus denied" ∧
     Event.focusRequested mainWindow.label ∈
       (setupHook sampleApp focusFailEnv).snd.fst ∧
     (setupHook sampleApp focusFailEnv).snd.snd = Except.ok () ∧
     (run focusFailEnv sampleApp).snd =
       expect focusFailEnv.runResult
         "error while running tauri application") :=
  ⟨⟨rfl, rfl⟩,
   focus_failure_swallowed sampleApp focusFailEnv mainWindow
     "focus denied" rfl rfl⟩

/-- C6: `run` performs its steps in the exact order: default builder,
the three plugins (shell, dialog, fs), setup-hook registration, then
handing control to the framework run loop. -/
theorem run_steps_in_order (env : Env) (app : App) :
    ∃ rest,
      (run env app).fst =
        [Event.builderDefault,
         Event.pluginRegistered Plugin.shell,
         Event.pluginRegistered Plugin.dialog,
         Event.pluginRegistered Plugin.fs,
         Event.setupRegistered,
         Event.runInvoked] ++ rest := by
  refine ⟨[Event.windowLookup "main"] ++
    (match getWebviewWindow app "main" with
     | some w => [Event.focusRequested w.label]
     | none => []) ++ [Event.eventLoopRunning], ?_⟩
  rw [run_spec]
  simp

/-- C7: when the framework run loop returns success, `run` completes
normally — the abort branch of the final `expect` is not taken. -/
theorem run_no_abort_on_success (env : Env) (app : App)
    (h : env.runResult = Except.ok ()) :
    (run env app).snd = ProcessOutcome.exitedNormally := by
  rw [run_spec, h]
  rfl

/-- Witness for C7 at a concrete succeeding environment. -/
theorem run_no_abort_on_success_witness :
    okEnv.runResult = Except.ok () ∧
    (run okEnv sampleApp).snd = ProcessOutcome.exitedNormally :=
  ⟨rfl, run_no_abort_on_success okEnv sampleApp rfl⟩

/-- C8: across the whole trace of `run`, the window named "main" is
looked up exactly once (inside the setup hook), never again. -/
theorem main_window_looked_up_once (env : Env) (app : App) :
    (run env app).fst.count (Event.windowLookup "main") = 1 := by
  rw [run_spec]
  cases getWebviewWindow app "main" <;>
    simp [List.count_append, List.count_cons, List.count_singleton]

/-- C9: the setup hook returns `Ok(())` on every application state and in
every environment, so running the builder never fails because of the
hook: the run outcome is exactly the event loop's outcome. -/
theorem setup_hook_never_fails (app : App) (env : Env) :
    (setupHook app env).snd.snd = Except.ok () ∧
    (appBuilder.run env app generateContext).snd = env.runResult := by
  constructor
  · rw [setupHook_spec]
  · rw [appBuilder_run_spec]

/-- C10: the setup hook leaves the application state unchanged and its
trace is exactly one lookup of "main" plus (at most) one focus request:
it registers no commands and creates no windows. -/
theorem setup_hook_frame_effect (app : App) (env : Env) :
    (setupHook app env).fst = app ∧
    (setupHook app env).snd.fst =
      Event.windowLookup "main" ::
        (match getWebviewWindow app "main" with
         | some w => [Event.focusRequested w.label]
         | none => []) ∧
    (setupHook app env).snd.fst.countP Event.isStateMutation = 0 := by
  refine ⟨?_, ?_, ?_⟩
  · rw [setupHook_spec]
  · rw [setupHook_spec]
  · rw [setupHook_spec]
    cases getWebviewWindow app "main" <;> rfl

end WebFileNameTranslator
